import Mathlib

set_option maxRecDepth 4000

/-!
Verification of the repository-query tool server in `src/server.py`.

The server exposes four stateless tools (`list_repositories`, `get_repository`,
`search_repositories`, `get_repository_contents`) that call a hosting provider
through a client library, reshape the response, and return formatted text.

Shallow embedding conventions:
- A Python `str` used as text data is a Lean `String`; in the file-preview
  pipeline, where character-level counting matters, it is a `List Char`
  (Python strings are sequences of Unicode code points).
- Python `datetime` values are modelled by `PyDatetime`: they compare by a
  numeric time value and render through a fixed `iso` string (the result of
  `isoformat()`).
- Fallible Python code is `Except String α`; the error string stands for the
  raised exception as it would be rendered into the enclosing message.
- Provider network calls are inputs to the handlers: each handler takes the
  outcome of the calls it performs (success value or raised exception), since
  the network itself is outside the program.
- Library codec primitives (`base64.b64decode` followed by
  `bytes.decode("utf-8", errors="replace")`, and the `decoded_content`
  property) are carried as per-file result fields of `FileContents`, because
  their implementations are external to this repository; the control flow
  around them is embedded from the source.
-/

namespace Server

/-! ## Python primitives -/

/-- Python string comparison `a < b`: lexicographic on code points,
a strict prefix is smaller. -/
def pyStrLt : List Char → List Char → Bool
  | [], [] => false
  | [], _ :: _ => true
  | _ :: _, [] => false
  | a :: as, b :: bs =>
    if a.toNat < b.toNat then true
    else if b.toNat < a.toNat then false
    else pyStrLt as bs

/-- A Python `datetime`: compares by the numeric time value `t`;
`isoformat()` returns `iso`. -/
structure PyDatetime where
  t : Nat
  iso : String
deriving DecidableEq

/-- Effective index of a Python slice bound `i` on a list of length `len`:
a negative bound counts from the end (clamped to 0), a nonnegative bound is
clamped to `len`. -/
def pyAdjIndex (len : Nat) (i : Int) : Nat :=
  if i < 0 then ((len : Int) + i).toNat else min i.toNat len

/-- Python slice `l[s:e]` (no step): the elements at effective indices
`[s', e')`. -/
def pySlice {α : Type} (l : List α) (s e : Int) : List α :=
  (l.take (pyAdjIndex l.length e)).drop (pyAdjIndex l.length s)

/-- One insertion step of a stable sort whose comparison can raise.
`cmp y x` models the Python `<` test `key(y) < key(x)`; an element `x` coming
later in the original order is inserted after every `y` with `key y < key x`,
so elements with equal keys keep their original order (Python `sorted` is
stable). A raised comparison aborts the sort. -/
def insertE {α : Type} (cmp : α → α → Except String Bool) (x : α) :
    List α → Except String (List α)
  | [] => .ok [x]
  | y :: ys =>
    match cmp y x with
    | .error e => .error e
    | .ok true => (insertE cmp x ys).map (y :: ·)
    | .ok false => .ok (x :: y :: ys)

/-- Stable ascending sort with a comparison that can raise, modelling Python
`sorted(l, key=k)` (which raises `TypeError` when two keys are
incomparable). -/
def sortE {α : Type} (cmp : α → α → Except String Bool) :
    List α → Except String (List α)
  | [] => .ok []
  | x :: xs =>
    match sortE cmp xs with
    | .error e => .error e
    | .ok s => insertE cmp x s

/-- Python `sorted(l, key=k, reverse=rev)`: CPython implements `reverse=True`
by reversing the list before and after a stable ascending sort, which keeps
elements with equal keys in their original order. -/
def pySortedRev {α : Type} (cmp : α → α → Except String Bool) (reverse : Bool)
    (l : List α) : Except String (List α) :=
  if reverse then (sortE cmp l.reverse).map List.reverse else sortE cmp l

/-- A sort key value produced by the `sort_key` lambdas in
`list_repositories`: either a possibly missing datetime or a string. -/
inductive PyKey : Type where
  | dt : Option PyDatetime → PyKey
  | s : String → PyKey

/-- Python `<` on sort keys. Comparing `None` with anything (including
`None`) raises `TypeError`; datetimes compare chronologically; strings
compare lexicographically by code point. -/
def pyLtKey : PyKey → PyKey → Except String Bool
  | .dt (some a), .dt (some b) => .ok (decide (a.t < b.t))
  | .s a, .s b => .ok (pyStrLt a.data b.data)
  | _, _ => .error "TypeError: comparison not supported between instances of datetime and NoneType"

/-! ## Provider data and exceptions -/

/-- A `GithubException` as observed by `_err_msg`: `data` models `e.data`
(`none` for Python `None`, otherwise the parsed JSON body as a string-valued
dict), `str` models `str(e)`. -/
structure GithubException where
  data : Option (List (String × String))
  str : String

/-- Python `dict.get(k)`: the value at the first matching key, else `None`. -/
def dictGet (d : List (String × String)) (k : String) : Option String :=
  (d.find? (fun kv => kv.1 == k)).map (fun kv => kv.2)

/-- How Python renders an `Optional[str]` into an f-string:
`None` prints as `"None"`. -/
def pyFormatOptStr : Option String → String
  | none => "None"
  | some s => s

/-- `_err_msg` (src/server.py lines 18-19):
`e.data.get("message") if getattr(e, "data", None) else str(e)`.
`getattr(e, "data", None)` is truthy exactly when `data` is a nonempty
dict (Python `None` and `{}` are falsy). -/
def _err_msg (e : GithubException) : String :=
  match e.data with
  | none => e.str
  | some d => if d.isEmpty then e.str else pyFormatOptStr (dictGet d "message")

/-! ## JSON values and `json.dumps(..., indent=2)` -/

/-- A JSON value as produced by the handlers (no floats are ever built by the
payload code that the claims touch; the search `score` is carried as a
number). -/
inductive JVal : Type where
  | null : JVal
  | jbool : Bool → JVal
  | jnat : Nat → JVal
  | jstr : String → JVal
  | jarr : List JVal → JVal
  | jobj : List (String × JVal) → JVal

/-- JSON string escaping as in Python `json.dumps` for ASCII content:
quote, backslash, and the control shorthands, other code points below 32 as
lowercase `\u00XX` (escaping of non-ASCII code points under the default
`ensure_ascii=True` is not modelled; no payload in the claims needs it). -/
def jsonEscapeChar (c : Char) : List Char :=
  if c = '"' then ['\\', '"']
  else if c = '\\' then ['\\', '\\']
  else if c = '\n' then ['\\', 'n']
  else if c = '\t' then ['\\', 't']
  else if c = '\r' then ['\\', 'r']
  else if c = Char.ofNat 8 then ['\\', 'b']
  else if c = Char.ofNat 12 then ['\\', 'f']
  else if c.toNat < 32 then
    ['\\', 'u', '0', '0', Nat.digitChar (c.toNat / 16), Nat.digitChar (c.toNat % 16)]
  else [c]

/-- Escape every character of a JSON string. -/
def jsonEscape (s : String) : String :=
  String.mk (s.data.foldr (fun c acc => jsonEscapeChar c ++ acc) [])

/-- `2 * lvl` spaces of indentation. -/
def pad (lvl : Nat) : String :=
  String.mk (List.replicate (2 * lvl) ' ')

mutual
/-- Pretty-print a JSON value at nesting level `lvl` exactly as Python
`json.dumps(v, indent=2)` does: items on their own lines, two extra spaces per
level, `", "`-free item separators (comma then newline), `": "` after keys,
and `[]` / empty braces for empty containers. -/
def dumpsVal (lvl : Nat) : JVal → String
  | .null => "null"
  | .jbool true => "true"
  | .jbool false => "false"
  | .jnat n => Nat.repr n
  | .jstr s => "\"" ++ jsonEscape s ++ "\""
  | .jarr [] => "[]"
  | .jarr (x :: xs) => "[\n" ++ dumpsItems (lvl + 1) (x :: xs) ++ "\n" ++ pad lvl ++ "]"
  | .jobj [] => "\x7b\x7d"
  | .jobj (kv :: kvs) => "\x7b\n" ++ dumpsFields (lvl + 1) (kv :: kvs) ++ "\n" ++ pad lvl ++ "\x7d"

/-- Array items, one per line, comma-separated. -/
def dumpsItems (lvl : Nat) : List JVal → String
  | [] => ""
  | [x] => pad lvl ++ dumpsVal lvl x
  | x :: y :: xs => pad lvl ++ dumpsVal lvl x ++ ",\n" ++ dumpsItems lvl (y :: xs)

/-- Object fields, one per line, comma-separated, `": "` after each key. -/
def dumpsFields (lvl : Nat) : List (String × JVal) → String
  | [] => ""
  | [(k, v)] => pad lvl ++ "\"" ++ jsonEscape k ++ "\": " ++ dumpsVal lvl v
  | (k, v) :: kv :: kvs =>
      pad lvl ++ "\"" ++ jsonEscape k ++ "\": " ++ dumpsVal lvl v ++ ",\n" ++ dumpsFields lvl (kv :: kvs)
end

/-- `json.dumps(v, indent=2)` at top level. -/
def jsonDumps (v : JVal) : String := dumpsVal 0 v

/-- Field lookup in a JSON object (used to state what a payload contains). -/
def jObjField (v : JVal) (k : String) : Option JVal :=
  match v with
  | .jobj kvs => ((kvs.find? (fun kv => kv.1 == k)).map (fun kv => kv.2))
  | _ => none

/-- An optional string rendered into JSON (`None` becomes `null`). -/
def optStrJson : Option String → JVal
  | none => JVal.null
  | some s => JVal.jstr s

/-- An optional number rendered into JSON (`None` becomes `null`). -/
def optNatJson : Option Nat → JVal
  | none => JVal.null
  | some n => JVal.jnat n

/-- `r.updated_at.isoformat() if r.updated_at else None` rendered into
JSON. -/
def pyIsoOpt : Option PyDatetime → JVal
  | none => JVal.null
  | some d => JVal.jstr d.iso

/-! ## list_repositories (src/server.py lines 59-114) -/

/-- A repository summary as consumed by `list_repositories`. The field
`is_private` models the Python attribute `r.private` (`private` is a Lean
keyword). -/
structure Repo where
  name : String
  full_name : String
  description : Option String
  is_private : Bool
  html_url : String
  language : Option String
  stargazers_count : Nat
  forks_count : Nat
  created_at : Option PyDatetime
  updated_at : Option PyDatetime
  pushed_at : Option PyDatetime
deriving DecidableEq

/-- The `type` literal parameter of `list_repositories`. `private_` models
the literal `"private"`. -/
inductive RepoType : Type where
  | all | owner | public | private_ | member
deriving DecidableEq

/-- The `sort` literal parameter of `list_repositories`. -/
inductive SortField : Type where
  | created | updated | pushed | full_name
deriving DecidableEq

/-- The `direction` / `order` literal parameter. -/
inductive Direction : Type where
  | asc | desc
deriving DecidableEq

/-- `direction == "desc"`, the `reverse=` argument passed to `sorted`. -/
def Direction.isDesc : Direction → Bool
  | .asc => false
  | .desc => true

/-- The repositories returned by the three provider calls the handler can
make: `user.get_repos()`, `user.get_repos(affiliation="owner")`, and
`user.get_repos(affiliation="collaborator,organization_member")`. -/
structure FetchedRepos where
  all : List Repo
  owner : List Repo
  member : List Repo
deriving DecidableEq

/-- Lines 72-81: pick the provider call by `type`, filtering client-side by
`r.private` for `"public"` and `"private"`. -/
def filterByType : RepoType → FetchedRepos → List Repo
  | .owner, f => f.owner
  | .member, f => f.member
  | .public, f => f.all.filter (fun r => !r.is_private)
  | .private_, f => f.all.filter (fun r => r.is_private)
  | .all, f => f.all

/-- Python `str.lower()` restricted to ASCII case mapping (every full name
the provider hands back is ASCII `owner/name` text). -/
def pyToLower (s : String) : String :=
  String.mk (s.data.map Char.toLower)

/-- Lines 83-88: the `sort_key` lambda selected by `sort`; the full-name key
is lowercased (`r.full_name.lower()`, ASCII lowering). -/
def sortKey : SortField → Repo → PyKey
  | .created, r => .dt r.created_at
  | .updated, r => .dt r.updated_at
  | .pushed, r => .dt r.pushed_at
  | .full_name, r => .s (pyToLower r.full_name)

/-- The comparison `sorted` performs between two repositories. -/
def cmpRepo (sort : SortField) (a b : Repo) : Except String Bool :=
  pyLtKey (sortKey sort a) (sortKey sort b)

/-- Line 89: `sorted(repos_iter, key=sort_key, reverse=(direction == "desc"))`. -/
def reposSorted (sort : SortField) (direction : Direction) (l : List Repo) :
    Except String (List Repo) :=
  pySortedRev (cmpRepo sort) direction.isDesc l

/-- Lines 91-93: `start = (page - 1) * per_page; end = start + per_page;
window = repos[start:end]`, after filtering and sorting. -/
def listWindow (type : RepoType) (sort : SortField) (direction : Direction)
    (per_page page : Int) (f : FetchedRepos) : Except String (List Repo) :=
  match reposSorted sort direction (filterByType type f) with
  | .error e => .error e
  | .ok repos =>
      .ok (pySlice repos ((page - 1) * per_page) ((page - 1) * per_page + per_page))

/-- Lines 95-109: one summary object of the returned payload. -/
def repoSummaryJson (r : Repo) : JVal :=
  .jobj [("name", .jstr r.name),
         ("full_name", .jstr r.full_name),
         ("description", optStrJson r.description),
         ("private", .jbool r.is_private),
         ("html_url", .jstr r.html_url),
         ("language", optStrJson r.language),
         ("stargazers_count", .jnat r.stargazers_count),
         ("forks_count", .jnat r.forks_count),
         ("updated_at", pyIsoOpt r.updated_at),
         ("created_at", pyIsoOpt r.created_at)]

/-- The `list_repositories` tool (lines 59-114). `fetch` is the outcome of
the provider calls; a raised `GithubException` is re-raised as a
`RuntimeError` whose message goes through `_err_msg`; a `TypeError` raised by
`sorted` propagates uncaught (only `GithubException` is caught). -/
def list_repositories (type : RepoType) (sort : SortField)
    (direction : Direction) (per_page page : Int)
    (fetch : Except GithubException FetchedRepos) : Except String String :=
  match fetch with
  | .error e => .error ("Failed to list repositories: " ++ _err_msg e)
  | .ok f =>
      match listWindow type sort direction per_page page f with
      | .error e => .error e
      | .ok window =>
          .ok ("Found " ++ Nat.repr window.length ++ " repositories:\n\n"
               ++ jsonDumps (.jarr (window.map repoSummaryJson)))

/-! ## get_repository (src/server.py lines 117-152) -/

/-- The full repository record read by `get_repository`; `topics` is the
result of `r.get_topics()`. -/
structure FullRepo where
  name : String
  full_name : String
  description : Option String
  is_private : Bool
  html_url : String
  clone_url : String
  ssh_url : String
  language : Option String
  stargazers_count : Nat
  subscribers_count : Nat
  forks_count : Nat
  open_issues_count : Nat
  size : Nat
  default_branch : String
  topics : List String
  created_at : Option PyDatetime
  updated_at : Option PyDatetime
  pushed_at : Option PyDatetime

/-- Lines 128-148: the `info` dict, with `lic` the license identifier
(`None` when the license lookup failed). -/
def repoInfoJson (r : FullRepo) (lic : Option String) : JVal :=
  .jobj [("name", .jstr r.name),
         ("full_name", .jstr r.full_name),
         ("description", optStrJson r.description),
         ("private", .jbool r.is_private),
         ("html_url", .jstr r.html_url),
         ("clone_url", .jstr r.clone_url),
         ("ssh_url", .jstr r.ssh_url),
         ("language", optStrJson r.language),
         ("stargazers_count", .jnat r.stargazers_count),
         ("watchers_count", .jnat r.subscribers_count),
         ("forks_count", .jnat r.forks_count),
         ("open_issues_count", .jnat r.open_issues_count),
         ("size", .jnat r.size),
         ("default_branch", .jstr r.default_branch),
         ("topics", .jarr (r.topics.map JVal.jstr)),
         ("license", optStrJson lic),
         ("created_at", pyIsoOpt r.created_at),
         ("updated_at", pyIsoOpt r.updated_at),
         ("pushed_at", pyIsoOpt r.pushed_at)]

/-- The `get_repository` tool (lines 117-152). `repoFetch` is the outcome of
`gh.get_repo` (and the attribute reads on it); `licenseFetch` is the outcome
of `r.get_license().license.spdx_id`, whose failure of any kind is swallowed
by the inner `try` into `lic = None` (lines 122-126). -/
def get_repository (owner repo : String)
    (repoFetch : Except GithubException FullRepo)
    (licenseFetch : Except String String) : Except String String :=
  match repoFetch with
  | .error e =>
      .error ("Failed to get repository " ++ owner ++ "/" ++ repo ++ ": " ++ _err_msg e)
  | .ok r =>
      let lic : Option String :=
        match licenseFetch with
        | .ok s => some s
        | .error _ => none
      .ok ("Repository Details:\n\n" ++ jsonDumps (repoInfoJson r lic))

/-! ## search_repositories (src/server.py lines 155-193) -/

/-- The `sort` literal parameter of `search_repositories`. -/
inductive SearchSort : Type where
  | stars | forks | help_wanted_issues | updated

/-- A search result item. `score` models `getattr(r, "score", None)` (absent
on the client objects, hence optional); its numeric value is carried as a
natural number, which is all the payload shape needs. -/
structure SearchRepo where
  name : String
  full_name : String
  description : Option String
  html_url : String
  language : Option String
  stargazers_count : Nat
  forks_count : Nat
  score : Option Nat
  updated_at : Option PyDatetime

/-- Lines 171-184: one item object of the search payload. -/
def searchItemJson (r : SearchRepo) : JVal :=
  .jobj [("name", .jstr r.name),
         ("full_name", .jstr r.full_name),
         ("description", optStrJson r.description),
         ("html_url", .jstr r.html_url),
         ("language", optStrJson r.language),
         ("stargazers_count", .jnat r.stargazers_count),
         ("forks_count", .jnat r.forks_count),
         ("score", optNatJson r.score),
         ("updated_at", pyIsoOpt r.updated_at)]

/-- Lines 167-169: `start = (page - 1) * per_page; end = start + per_page;
items = list(results)[start:end]`. -/
def searchWindow (per_page page : Int) (results : List SearchRepo) : List SearchRepo :=
  pySlice results ((page - 1) * per_page) ((page - 1) * per_page + per_page)

/-- The `search_repositories` tool (lines 155-193). `results` is the outcome
of `gh.search_repositories` together with its `totalCount`
(`getattr(results, "totalCount", None)`). -/
def search_repositories (q : String) (sort : Option SearchSort)
    (order : Direction) (per_page page : Int)
    (results : Except GithubException (List SearchRepo × Option Nat)) :
    Except String String :=
  match results with
  | .error e => .error ("Failed to search repositories: " ++ _err_msg e)
  | .ok (found, totalCount) =>
      let items := searchWindow per_page page found
      .ok ("Search Results:\n\n"
           ++ jsonDumps (.jobj [("approx_total", optNatJson totalCount),
                                ("items", .jarr (items.map searchItemJson))]))

/-! ## get_repository_contents (src/server.py lines 196-301) -/

/-- A directory entry returned by the provider for a directory listing. -/
structure DirEntry where
  name : String
  path : String
  type : String
  size : Nat
  download_url : Option String
  html_url : String

/-- A single-file content object returned by the provider.
`b64_text` is the outcome of `base64.b64decode(content)` followed by
`raw_bytes.decode("utf-8", errors="replace")`: with `errors="replace"` the
decode step never raises, so an error here is exactly a raised
`binascii.Error` from `b64decode` (rendered as the enclosing handler would
render it). `decoded_text` is the outcome of
`getattr(contents, "decoded_content", b"").decode("utf-8", errors="replace")`
for the non-base64 branch; an error models the `decoded_content` property
raising inside the inner `try`. -/
structure FileContents where
  name : String
  path : String
  type : String
  size : Nat
  download_url : Option String
  html_url : String
  encoding : String
  content : String
  b64_text : Except String (List Char)
  decoded_text : Except String (List Char)

/-- Lines 237-249: compute `text` (an `Optional[str]`). In the base64 branch
a `b64decode` failure propagates (to the handler at line 286); in the other
branch a failure of the inner `try` yields `text = None`. -/
def computeText (fc : FileContents) : Except String (Option (List Char)) :=
  if fc.encoding == "base64" && !(fc.content == "") then
    match fc.b64_text with
    | .error e => .error e
    | .ok t => .ok (some t)
  else
    match fc.decoded_text with
    | .error _ => .ok none
    | .ok t => .ok (some t)

/-- Line 255: a character counted as non-printable by the binary heuristic:
`ord(c) < 9 or (13 < ord(c) < 32)`. -/
def isControlCounted (c : Char) : Bool :=
  decide (c.toNat < 9) || (decide (13 < c.toNat) && decide (c.toNat < 32))

/-- Lines 253-256: `sum(1 for c in sample if ord(c) < 9 or (13 < ord(c) < 32))`
over `sample = text[:100]`. -/
def non_printable (text : List Char) : Nat :=
  ((text.take 100).filter isControlCounted).length

/-- Lines 251-258: `is_binary` is set exactly when the count exceeds 10. -/
def is_binary (text : List Char) : Bool :=
  decide (10 < non_printable text)

/-- Lines 260-269: the `preview` value for a file. -/
def previewOf : Option (List Char) → List Char
  | none => "[Unable to decode file contents]".data
  | some text =>
      if is_binary text then "[Binary file preview omitted]".data
      else if text.length ≤ 4000 then text
      else text.take 4000 ++ "\n...[truncated]...".data

/-- The owner/repo/path context fragment appearing in every contents
message: owner, slash, repo, and a slash plus the path when the path is
nonempty (a Python string is truthy iff nonempty). -/
def ctxPath (owner repo path : String) : String :=
  owner ++ "/" ++ repo ++ (if path == "" then "" else "/" ++ path)

/-- A single-quote character (code point 39). -/
def squote : String := String.mk [Char.ofNat 39]

/-- Python `repr` of a string that needs no internal escapes: the text
wrapped in single quotes (all strings the claims feed through `path!r` are of
this shape). -/
def pyReprStr (s : String) : String := squote ++ s ++ squote

/-- Python `repr` of an `Optional[str]`: `None` has repr `"None"`. -/
def pyReprOptStr : Option String → String
  | none => "None"
  | some s => pyReprStr s

/-- Python string slice `s[:n]`: the first `n` characters. -/
def pyStrTake (s : String) (n : Nat) : String :=
  String.mk (s.data.take n)

/-- Lines 214-216: the debug line naming the runtime type of the contents
object and the first 500 characters of its repr. The runtime renderings
`type(contents)` and `repr(contents)` are environment-produced text and
enter as parameters. -/
def debugInfo (typeStr reprStr : String) : String :=
  "[DEBUG] contents type: " ++ typeStr ++ ", repr: " ++ pyStrTake reprStr 500

/-- Lines 219-228: one entry of a directory listing payload. -/
def dirEntryJson (c : DirEntry) : JVal :=
  .jobj [("name", .jstr c.name),
         ("path", .jstr c.path),
         ("type", .jstr c.type),
         ("size", .jnat c.size),
         ("download_url", optStrJson c.download_url),
         ("html_url", .jstr c.html_url)]

/-- Lines 271-279: the `file_info` payload, with the computed preview. -/
def fileInfoJson (fc : FileContents) (preview : List Char) : JVal :=
  .jobj [("name", .jstr fc.name),
         ("path", .jstr fc.path),
         ("type", .jstr fc.type),
         ("size", .jnat fc.size),
         ("download_url", optStrJson fc.download_url),
         ("html_url", .jstr fc.html_url),
         ("preview", .jstr (String.mk preview))]

/-- The outcome of `r.get_contents(path or "", ref=ref)`:
an `AssertionError` raised inside the client (its `repr` as text), a raised
`GithubException`, a directory listing, or a single file. -/
inductive ContentsResult : Type where
  | assertionError : String → ContentsResult
  | raised : GithubException → ContentsResult
  | dir : List DirEntry → ContentsResult
  | file : FileContents → ContentsResult

/-- Lines 236-293: the single-file branch. A failure while computing `text`
is caught by the `except Exception` at line 286 and reported as a diagnostic
string (the error text stands for the exception type name, a colon, and the
repr of the exception, as the f-string at line 291 renders them). -/
def fileBranch (owner repo path : String) (dbg : String) (fc : FileContents) : String :=
  match computeText fc with
  | .error e =>
      dbg ++ "\n" ++ "Unexpected error decoding file for "
      ++ ctxPath owner repo path ++ ": " ++ e
  | .ok text =>
      dbg ++ "\n" ++ "File Details:\n\n"
      ++ jsonDumps (fileInfoJson fc (previewOf text))

/-- The `get_repository_contents` tool (lines 196-301). `repoFetch` is the
outcome of `gh.get_repo`; `contents` the outcome of `r.get_contents`;
`typeStr` and `reprStr` the runtime renderings used by the debug line.
An `AssertionError` from the lookup returns a diagnostic string (lines
208-212); a `GithubException` from either call propagates as a
`RuntimeError` through `_err_msg` (lines 294-297). -/
def get_repository_contents (owner repo path : String) (ref : Option String)
    (repoFetch : Except GithubException Unit) (contents : ContentsResult)
    (typeStr reprStr : String) : Except String String :=
  match repoFetch with
  | .error e =>
      .error ("Failed to get contents for " ++ ctxPath owner repo path ++ ": " ++ _err_msg e)
  | .ok _ =>
      match contents with
      | .assertionError reprAe =>
          .ok ("[DEBUG] AssertionError while getting contents for "
               ++ ctxPath owner repo path ++ ": " ++ reprAe ++ "\n"
               ++ "path: " ++ pyReprStr path ++ ", ref: " ++ pyReprOptStr ref)
      | .raised e =>
          .error ("Failed to get contents for " ++ ctxPath owner repo path ++ ": " ++ _err_msg e)
      | .dir entries =>
          .ok (debugInfo typeStr reprStr ++ "\n"
               ++ "Directory Contents (" ++ (if path == "" then "root" else path) ++ "):\n\n"
               ++ jsonDumps (.jarr (entries.map dirEntryJson)))
      | .file fc =>
          .ok (fileBranch owner repo path (debugInfo typeStr reprStr) fc)

/-- Decidable equality for `Except`, used to settle concrete instances by
`decide`. -/
instance {ε α : Type} [DecidableEq ε] [DecidableEq α] : DecidableEq (Except ε α) :=
  fun a b =>
    match a, b with
    | .error x, .error y =>
        if h : x = y then isTrue (by rw [h]) else isFalse (by intro hc; cases hc; exact h rfl)
    | .ok x, .ok y =>
        if h : x = y then isTrue (by rw [h]) else isFalse (by intro hc; cases hc; exact h rfl)
    | .error _, .ok _ => isFalse (fun hc => Except.noConfusion hc)
    | .ok _, .error _ => isFalse (fun hc => Except.noConfusion hc)

/-! ## Predicates and fixtures used by the claims -/

/-- Whether a returned string consists of a first line followed immediately
by a blank line (the character right after the first newline is again a
newline). Any string of the claimed shape `header ++ "\n\n" ++ body` with a
newline-free header satisfies this. -/
def headerThenBlank (s : String) : Bool :=
  match s.data.dropWhile (fun c => !(c == '\n')) with
  | _ :: c :: _ => c == '\n'
  | _ => false

/-- Modelled from the spec: the control-character count the spec describes
for the binary heuristic — among the first 100 characters, every character
below code point 32 except tab, newline, and carriage return. (The code
instead also excludes vertical tab and form feed; see `isControlCounted`.) -/
def specControlCount (text : List Char) : Nat :=
  ((text.take 100).filter
    (fun c => decide (c.toNat < 32) && !(c == Char.ofNat 9)
              && !(c == Char.ofNat 10) && !(c == Char.ofNat 13))).length

/-- The timestamp field selected by a timestamp sort key (the `full_name`
case is unused by the statements that take this projection). -/
def tsKey : SortField → Repo → Option PyDatetime
  | .created, r => r.created_at
  | .updated, r => r.updated_at
  | .pushed, r => r.pushed_at
  | .full_name, _ => none

/-- A repository summary with the given name and creation time and neutral
remaining fields, used by concrete instances. -/
def mkRepo (nm : String) (created : Option PyDatetime) : Repo :=
  { name := nm, full_name := nm, description := none, is_private := false,
    html_url := "", language := none, stargazers_count := 0, forks_count := 0,
    created_at := created, updated_at := none, pushed_at := none }

/-- The three public repositories of the worked example in the spec:
named Zeta, alpha, Beta, in that fetch order. -/
def demoFetched : FetchedRepos :=
  { all := [mkRepo "Zeta" none, mkRepo "alpha" none, mkRepo "Beta" none],
    owner := [], member := [] }


/-- A search item with the given name and neutral remaining fields. -/
def mkSearchRepo (nm : String) : SearchRepo :=
  { name := nm, full_name := nm, description := none, html_url := "",
    language := none, stargazers_count := 0, forks_count := 0,
    score := none, updated_at := none }

/-- Three concrete search results, used to instantiate windowing facts. -/
def demoSearch : List SearchRepo :=
  [mkSearchRepo "one", mkSearchRepo "two", mkSearchRepo "three"]

/-- A fetch in which the first repository lacks `created_at` and the second
carries it: sorting it by `created` must compare a datetime with `None`. -/
def c3Fetched : FetchedRepos :=
  { all := [mkRepo "missing-created" none,
            mkRepo "dated" (some { t := 5, iso := "2020-01-01T00:00:00" })],
    owner := [], member := [] }

/-- A fetch in which every repository carries `created_at`, so a timestamp
sort has no `None` key to trip over. -/
def c3DatedFetched : FetchedRepos :=
  { all := [mkRepo "dated" (some { t := 5, iso := "2020-01-01T00:00:00" })],
    owner := [], member := [] }

/-- A base64 file whose `b64decode` raises (malformed padding), driving the
decode-error branch of the file pipeline. -/
def badB64File : FileContents :=
  { name := "blob.bin", path := "blob.bin", type := "file", size := 3,
    download_url := none, html_url := "",
    encoding := "base64", content := "%%%",
    b64_text := .error "binascii.Error: Invalid base64-encoded string",
    decoded_text := .ok [] }

/-- A decodable base64 file whose text is eleven vertical-tab characters:
all of them are control characters below code point 32 and none of them is
tab, newline, or carriage return. -/
def vtFile : FileContents :=
  { name := "vt.txt", path := "vt.txt", type := "file", size := 11,
    download_url := none, html_url := "",
    encoding := "base64", content := "CwsLCwsLCwsLCws=",
    b64_text := .ok (List.replicate 11 (Char.ofNat 11)),
    decoded_text := .ok [] }

/-- A provider exception carrying a structured message. -/
def structuredErr : GithubException :=
  { data := some [("message", "Not Found"), ("status", "404")],
    str := "404 Client Error: Not Found" }

/-- A provider exception with no structured data at all. -/
def bareErr : GithubException :=
  { data := none, str := "connection reset by peer" }

/-- The three timestamp sort keys. -/
def tsSort (sf : SortField) : Prop :=
  sf = .created ∨ sf = .updated ∨ sf = .pushed

/-! ## Helper lemmas -/

/-- No decimal digit character is a newline. -/
theorem digitChar_ne_nl (m : Nat) : Nat.digitChar m ≠ '\n' := by
  rcases Nat.lt_or_ge m 16 with h | h
  · interval_cases m <;> decide
  · have hstar : Nat.digitChar m = '*' := by
      simp only [Nat.digitChar]
      iterate 16 rw [if_neg (by omega)]
    rw [hstar]
    decide

/-- `Nat.toDigitsCore` never introduces a newline. -/
theorem toDigitsCore_ne_nl (fuel n : Nat) (ds : List Char) (h : '\n' ∉ ds) :
    '\n' ∉ Nat.toDigitsCore 10 fuel n ds := by
  induction fuel generalizing n ds with
  | zero => simpa [Nat.toDigitsCore] using h
  | succ fuel ih =>
    simp only [Nat.toDigitsCore]
    split
    · intro hc
      rcases List.mem_cons.mp hc with hc | hc
      · exact digitChar_ne_nl _ hc.symm
      · exact h hc
    · apply ih
      intro hc
      rcases List.mem_cons.mp hc with hc | hc
      · exact digitChar_ne_nl _ hc.symm
      · exact h hc

/-- The decimal rendering of a natural number contains no newline, so the
count-prefixed header lines stay single lines. -/
theorem natRepr_ne_nl (n : Nat) : '\n' ∉ (Nat.repr n).data := by
  have := toDigitsCore_ne_nl (n + 1) n [] (by simp)
  simpa [Nat.repr, Nat.toDigits, List.asString] using this

/-- Dropping while a predicate holds skips a block of characters on which it
holds everywhere. -/
theorem dropWhile_all_append (p : Char → Bool) (l r : List Char)
    (hall : ∀ c ∈ l, p c = true) : (l ++ r).dropWhile p = r.dropWhile p := by
  induction l with
  | nil => rfl
  | cons c cs ih =>
    simp only [List.cons_append, List.dropWhile_cons, hall c (by simp), if_true]
    exact ih (fun d hd => hall d (by simp [hd]))

/-- Any string of the shape `header ++ "\n\n" ++ body` with a newline-free
header passes the `headerThenBlank` test. -/
theorem headerThenBlank_decomp (h b : String) (hnl : '\n' ∉ h.data) :
    headerThenBlank (h ++ "\n\n" ++ b) = true := by
  unfold headerThenBlank
  have hdata : (h ++ "\n\n" ++ b).data = h.data ++ ('\n' :: '\n' :: b.data) := by
    simp only [String.data_append, List.append_assoc]
    rfl
  rw [hdata]
  rw [dropWhile_all_append _ _ _ (fun c hc => by
    have : c ≠ '\n' := fun he => hnl (he ▸ hc)
    simp [this])]
  rfl

/-- Length of the windowed slice `l[s : s+pp]` for nonnegative bounds: the
claimed `min(per_page, max(0, total - start))`. -/
theorem pySlice_length {α : Type} (l : List α) (s pp : Int) (hs : 0 ≤ s) (hpp : 0 ≤ pp) :
    ((pySlice l s (s + pp)).length : Int) = min pp (max 0 ((l.length : Int) - s)) := by
  unfold pySlice pyAdjIndex
  rw [if_neg (by omega), if_neg (by omega)]
  simp only [List.length_drop, List.length_take]
  omega

/-- For nonnegative bounds the Python slice `l[s : s+pp]` is the contiguous
window: drop the first `s` elements, take the next `pp`. -/
theorem pySlice_eq_drop_take {α : Type} (l : List α) (s pp : Int) (hs : 0 ≤ s) (hpp : 0 ≤ pp) :
    pySlice l s (s + pp) = (l.drop s.toNat).take pp.toNat := by
  unfold pySlice pyAdjIndex
  rw [if_neg (by omega), if_neg (by omega)]
  rcases le_or_lt l.length s.toNat with hsl | hsl
  · have h1 : min s.toNat l.length = l.length := by omega
    have h2 : min (s + pp).toNat l.length ≤ l.length := by omega
    rw [h1]
    have hlen : (l.take (min (s + pp).toNat l.length)).length ≤ l.length := by
      simp only [List.length_take]
      omega
    rw [List.drop_of_length_le hlen, List.drop_of_length_le (by simpa using hsl),
        List.take_nil]
  · have h1 : min s.toNat l.length = s.toNat := by omega
    rw [h1]
    rcases le_or_lt (s + pp).toNat l.length with hel | hel
    · have h2 : min (s + pp).toNat l.length = (s + pp).toNat := by omega
      have h3 : (s + pp).toNat = s.toNat + pp.toNat := by omega
      rw [h2, h3, ← List.take_drop]
    · have h2 : min (s + pp).toNat l.length = l.length := by omega
      rw [h2, List.take_length, List.take_of_length_le]
      simp only [List.length_drop]
      omega

/-- A Python slice with end bound 0 is empty. -/
theorem pySlice_end_zero {α : Type} (l : List α) (s : Int) : pySlice l s 0 = [] := by
  unfold pySlice
  have h0 : pyAdjIndex l.length 0 = 0 := by simp [pyAdjIndex]
  rw [h0]
  simp

/-- A successful insertion produces a list one element longer. -/
theorem insertE_ok_length {α : Type} (cmp : α → α → Except String Bool) (x : α) :
    ∀ (s s' : List α), insertE cmp x s = .ok s' → s'.length = s.length + 1 := by
  intro s
  induction s with
  | nil =>
    intro s' h
    unfold insertE at h
    cases h
    rfl
  | cons y ys ih =>
    intro s' h
    unfold insertE at h
    cases hc : cmp y x with
    | error e => rw [hc] at h; cases h
    | ok b =>
      rw [hc] at h
      cases b with
      | true =>
        cases hi : insertE cmp x ys with
        | error e => rw [hi] at h; cases h
        | ok t =>
          rw [hi] at h
          simp only [Except.map] at h
          cases h
          simp [ih t hi]
      | false =>
        cases h
        simp

/-- Every element of a successful insertion is the inserted element or one of
the originals. -/
theorem insertE_mem {α : Type} (cmp : α → α → Except String Bool) (x : α) :
    ∀ (s s' : List α), insertE cmp x s = .ok s' → ∀ z ∈ s', z = x ∨ z ∈ s := by
  intro s
  induction s with
  | nil =>
    intro s' h z hz
    unfold insertE at h
    cases h
    simp at hz
    simp [hz]
  | cons y ys ih =>
    intro s' h z hz
    unfold insertE at h
    cases hc : cmp y x with
    | error e => rw [hc] at h; cases h
    | ok b =>
      rw [hc] at h
      cases b with
      | true =>
        cases hi : insertE cmp x ys with
        | error e => rw [hi] at h; cases h
        | ok t =>
          rw [hi] at h
          simp only [Except.map] at h
          cases h
          rcases List.mem_cons.mp hz with hz | hz
          · right; simp [hz]
          · rcases ih t hi z hz with h | h
            · left; exact h
            · right; exact List.mem_cons_of_mem _ h
      | false =>
        cases h
        rcases List.mem_cons.mp hz with hz | hz
        · left; exact hz
        · right; exact hz

/-- Insertion succeeds when every comparison the walk can make succeeds. -/
theorem insertE_ok {α : Type} (cmp : α → α → Except String Bool) (P : α → Prop)
    (hcmp : ∀ a b, P a → P b → ∃ bb, cmp a b = .ok bb) (x : α) (hx : P x) :
    ∀ (s : List α), (∀ y ∈ s, P y) → ∃ s', insertE cmp x s = .ok s' := by
  intro s
  induction s with
  | nil => exact fun _ => ⟨[x], rfl⟩
  | cons y ys ih =>
    intro hall
    obtain ⟨b, hb⟩ := hcmp y x (hall y (List.mem_cons_self y ys)) hx
    cases b with
    | true =>
      obtain ⟨t, ht⟩ := ih (fun z hz => hall z (List.mem_cons_of_mem _ hz))
      refine ⟨y :: t, ?_⟩
      unfold insertE
      rw [hb, ht]
      rfl
    | false =>
      refine ⟨x :: y :: ys, ?_⟩
      unfold insertE
      rw [hb]

/-- A successful sort preserves the length. -/
theorem sortE_ok_length {α : Type} (cmp : α → α → Except String Bool) :
    ∀ (l s : List α), sortE cmp l = .ok s → s.length = l.length := by
  intro l
  induction l with
  | nil =>
    intro s h
    cases h
    rfl
  | cons x xs ih =>
    intro s h
    unfold sortE at h
    cases hxs : sortE cmp xs with
    | error e => rw [hxs] at h; cases h
    | ok t =>
      rw [hxs] at h
      have := insertE_ok_length cmp x t s h
      rw [this, ih t hxs]
      rfl

/-- The sort succeeds on a list of elements on which the comparison always
succeeds, and returns a list drawn from the input. -/
theorem sortE_ok_strong {α : Type} (cmp : α → α → Except String Bool) (P : α → Prop)
    (hcmp : ∀ a b, P a → P b → ∃ bb, cmp a b = .ok bb) :
    ∀ (l : List α), (∀ y ∈ l, P y) → ∃ s, sortE cmp l = .ok s ∧ ∀ z ∈ s, z ∈ l := by
  intro l
  induction l with
  | nil => exact fun _ => ⟨[], rfl, by simp⟩
  | cons x xs ih =>
    intro hall
    obtain ⟨s, hs, hmem⟩ := ih (fun y hy => hall y (List.mem_cons_of_mem _ hy))
    obtain ⟨s', hs'⟩ :=
      insertE_ok cmp P hcmp x (hall x (List.mem_cons_self x xs)) s
        (fun y hy => hall y (List.mem_cons_of_mem _ (hmem y hy)))
    refine ⟨s', ?_, ?_⟩
    · unfold sortE
      rw [hs]
      exact hs'
    · intro z hz
      rcases insertE_mem cmp x s s' hs' z hz with h | h
      · simp [h]
      · exact List.mem_cons_of_mem _ (hmem z h)

/-- When at least two elements are sorted and one of them makes every
comparison it takes part in raise, the sort raises. -/
theorem sortE_error {α : Type} (cmp : α → α → Except String Bool) (P : α → Prop)
    (hcmp_err : ∀ a b, ¬ P a ∨ ¬ P b → ∃ e, cmp a b = .error e) :
    ∀ (l : List α), 2 ≤ l.length → (∃ x ∈ l, ¬ P x) → ∃ e, sortE cmp l = .error e := by
  intro l
  induction l with
  | nil => intro h; simp at h
  | cons x xs ih =>
    intro hlen hbad
    obtain ⟨w, hw, hnw⟩ := hbad
    cases hxs : sortE cmp xs with
    | error e =>
      refine ⟨e, ?_⟩
      unfold sortE
      rw [hxs]
    | ok s =>
      have hslen : s.length = xs.length := sortE_ok_length cmp xs s hxs
      have hxs_len : 1 ≤ xs.length := by
        simp only [List.length_cons] at hlen
        omega
      obtain ⟨h0, t, hst⟩ : ∃ h0 t, s = h0 :: t := by
        cases s with
        | nil => simp at hslen; omega
        | cons a as => exact ⟨a, as, rfl⟩
      by_cases hPx : P x
      · have hw_xs : w ∈ xs := by
          rcases List.mem_cons.mp hw with h | h
          · exact absurd hPx (h ▸ hnw)
          · exact h
        rcases le_or_lt 2 xs.length with hxl | hxl
        · obtain ⟨e, he⟩ := ih hxl ⟨w, hw_xs, hnw⟩
          rw [he] at hxs
          cases hxs
        · have hxs_one : xs.length = 1 := by omega
          obtain ⟨a, ha⟩ := List.length_eq_one.mp hxs_one
          have hwa : w = a := by
            rw [ha] at hw_xs
            simpa using hw_xs
          have hsa : s = [a] := by
            rw [ha] at hxs
            unfold sortE at hxs
            simp only [sortE, insertE] at hxs
            cases hxs
            rfl
          obtain ⟨e, he⟩ := hcmp_err a x (Or.inl (hwa ▸ hnw))
          refine ⟨e, ?_⟩
          unfold sortE
          rw [hxs, hsa]
          unfold insertE
          rw [he]
      · obtain ⟨e, he⟩ := hcmp_err h0 x (Or.inr hPx)
        refine ⟨e, ?_⟩
        unfold sortE
        rw [hxs, hst]
        unfold insertE
        rw [he]

/-- A successful `sorted` call preserves the length (in either direction). -/
theorem pySortedRev_ok_length {α : Type} (cmp : α → α → Except String Bool)
    (rev : Bool) (l s : List α) (h : pySortedRev cmp rev l = .ok s) :
    s.length = l.length := by
  unfold pySortedRev at h
  cases rev with
  | false =>
    simp only [if_neg Bool.false_ne_true] at h
    exact sortE_ok_length cmp l s h
  | true =>
    simp only [if_pos rfl] at h
    cases hr : sortE cmp l.reverse with
    | error e => rw [hr] at h; cases h
    | ok t =>
      rw [hr] at h
      simp only [Except.map] at h
      cases h
      have := sortE_ok_length cmp l.reverse t hr
      simpa using this

/-- `sorted` succeeds when the comparison succeeds on all pairs drawn from
the input. -/
theorem pySortedRev_ok {α : Type} (cmp : α → α → Except String Bool) (P : α → Prop)
    (hcmp : ∀ a b, P a → P b → ∃ bb, cmp a b = .ok bb)
    (rev : Bool) (l : List α) (hall : ∀ y ∈ l, P y) :
    ∃ s, pySortedRev cmp rev l = .ok s := by
  unfold pySortedRev
  cases rev with
  | false =>
    simp only [if_neg Bool.false_ne_true]
    obtain ⟨s, hs, _⟩ := sortE_ok_strong cmp P hcmp l hall
    exact ⟨s, hs⟩
  | true =>
    simp only [if_pos rfl]
    obtain ⟨s, hs, _⟩ :=
      sortE_ok_strong cmp P hcmp l.reverse (fun y hy => hall y (List.mem_reverse.mp hy))
    exact ⟨s.reverse, by rw [hs]; rfl⟩

/-- `sorted` raises when at least two elements are sorted and one of them
poisons every comparison (in either direction). -/
theorem pySortedRev_error {α : Type} (cmp : α → α → Except String Bool) (P : α → Prop)
    (hcmp_err : ∀ a b, ¬ P a ∨ ¬ P b → ∃ e, cmp a b = .error e)
    (rev : Bool) (l : List α) (hlen : 2 ≤ l.length) (hbad : ∃ x ∈ l, ¬ P x) :
    ∃ e, pySortedRev cmp rev l = .error e := by
  unfold pySortedRev
  cases rev with
  | false =>
    simp only [if_neg Bool.false_ne_true]
    exact sortE_error cmp P hcmp_err l hlen hbad
  | true =>
    simp only [if_pos rfl]
    obtain ⟨w, hw, hnw⟩ := hbad
    obtain ⟨e, he⟩ :=
      sortE_error cmp P hcmp_err l.reverse (by simpa using hlen)
        ⟨w, List.mem_reverse.mpr hw, hnw⟩
    exact ⟨e, by rw [he]; rfl⟩

/-- For a timestamp sort the selected key is the corresponding optional
datetime field. -/
theorem sortKey_ts (sf : SortField) (h : tsSort sf) (r : Repo) :
    sortKey sf r = .dt (tsKey sf r) := by
  rcases h with h | h | h <;> subst h <;> rfl

/-- For a timestamp sort, the comparison succeeds between two repositories
that both carry the field. -/
theorem cmpRepo_ts_ok (sf : SortField) (h : tsSort sf) (a b : Repo)
    (ha : (tsKey sf a).isSome) (hb : (tsKey sf b).isSome) :
    ∃ bb, cmpRepo sf a b = .ok bb := by
  obtain ⟨ta, hta⟩ := Option.isSome_iff_exists.mp ha
  obtain ⟨tb, htb⟩ := Option.isSome_iff_exists.mp hb
  refine ⟨decide (ta.t < tb.t), ?_⟩
  unfold cmpRepo
  rw [sortKey_ts sf h a, sortKey_ts sf h b, hta, htb]
  rfl

/-- For a timestamp sort, the comparison raises `TypeError` whenever either
side lacks the field (Python cannot order `None`). -/
theorem cmpRepo_ts_error (sf : SortField) (h : tsSort sf) (a b : Repo)
    (hab : ¬ (tsKey sf a).isSome = true ∨ ¬ (tsKey sf b).isSome = true) :
    ∃ e, cmpRepo sf a b = .error e := by
  refine ⟨"TypeError: comparison not supported between instances of datetime and NoneType", ?_⟩
  unfold cmpRepo
  rw [sortKey_ts sf h a, sortKey_ts sf h b]
  rcases hab with hna | hnb
  · have : tsKey sf a = none := Option.not_isSome_iff_eq_none.mp (by simpa using hna)
    rw [this]
    cases tsKey sf b <;> rfl
  · have : tsKey sf b = none := Option.not_isSome_iff_eq_none.mp (by simpa using hnb)
    rw [this]
    cases tsKey sf a <;> rfl

/-! ## Claims -/

/-- C4: For every positive page and per_page, list_repositories and
search_repositories return the contiguous window
`[(page-1)*per_page, page*per_page)` of the sorted result list, so the number
of returned items equals `min(per_page, max(0, total - (page-1)*per_page))`
where total is the number of results before windowing. -/
theorem c4_window_contract :
    (∀ (type : RepoType) (sf : SortField) (dir : Direction) (pp pg : Int)
       (f : FetchedRepos) (w : List Repo),
       1 ≤ pg → 1 ≤ pp → listWindow type sf dir pp pg f = .ok w →
       ∃ sorted, reposSorted sf dir (filterByType type f) = .ok sorted
         ∧ sorted.length = (filterByType type f).length
         ∧ w = (sorted.drop ((pg - 1) * pp).toNat).take pp.toNat
         ∧ (w.length : Int)
             = min pp (max 0 (((filterByType type f).length : Int) - (pg - 1) * pp)))
    ∧ (∀ (pp pg : Int) (results : List SearchRepo), 1 ≤ pg → 1 ≤ pp →
       searchWindow pp pg results
           = (results.drop ((pg - 1) * pp).toNat).take pp.toNat
       ∧ ((searchWindow pp pg results).length : Int)
           = min pp (max 0 ((results.length : Int) - (pg - 1) * pp))) := by
  have hnn : ∀ pp pg : Int, 1 ≤ pg → 1 ≤ pp → 0 ≤ (pg - 1) * pp := by
    intro pp pg hpg hpp
    exact mul_nonneg (by omega) (by omega)
  constructor
  · intro type sf dir pp pg f w hpg hpp hw
    unfold listWindow at hw
    cases hs : reposSorted sf dir (filterByType type f) with
    | error e => rw [hs] at hw; cases hw
    | ok sorted =>
      rw [hs] at hw
      cases hw
      have hlen : sorted.length = (filterByType type f).length := by
        unfold reposSorted at hs
        exact pySortedRev_ok_length _ _ _ _ hs
      refine ⟨sorted, rfl, hlen, ?_, ?_⟩
      · exact pySlice_eq_drop_take sorted _ pp (hnn pp pg hpg hpp) (by omega)
      · rw [pySlice_length sorted _ pp (hnn pp pg hpg hpp) (by omega), hlen]
  · intro pp pg results hpg hpp
    constructor
    · exact pySlice_eq_drop_take results _ pp (hnn pp pg hpg hpp) (by omega)
    · exact pySlice_length results _ pp (hnn pp pg hpg hpp) (by omega)

/-- Witness for C4 at page 2, per_page 2 over three search results and at
page 1, per_page 2 over the worked three-repository fetch. -/
theorem c4_window_contract_witness :
    (searchWindow 2 2 demoSearch = (demoSearch.drop ((2 - 1) * 2 : Int).toNat).take (2 : Int).toNat
      ∧ ((searchWindow 2 2 demoSearch).length : Int)
          = min 2 (max 0 ((demoSearch.length : Int) - (2 - 1) * 2)))
    ∧ ∃ sorted, reposSorted .full_name .asc (filterByType .public demoFetched) = .ok sorted
        ∧ sorted.length = (filterByType .public demoFetched).length
        ∧ [mkRepo "alpha" none, mkRepo "Beta" none]
            = (sorted.drop (((1 : Int) - 1) * 2).toNat).take (2 : Int).toNat
        ∧ (([mkRepo "alpha" none, mkRepo "Beta" none].length : Nat) : Int)
            = min 2 (max 0 (((filterByType .public demoFetched).length : Int) - (1 - 1) * 2)) := by
  exact ⟨c4_window_contract.2 2 2 demoSearch (by norm_num) (by norm_num),
         c4_window_contract.1 .public .full_name .asc 2 1 demoFetched
           [mkRepo "alpha" none, mkRepo "Beta" none]
           (by norm_num) (by norm_num) (by decide)⟩

/-- C10: list_repositories and search_repositories do not reject page 0 at
the boundary: the window start `(page-1)*per_page` is negative and Python
negative-index slicing applies, so page 0 with a positive per_page returns an
empty window whenever the total result count is at least per_page (the
handlers succeed rather than raising). -/
theorem c10_page_zero_empty :
    (∀ (pp : Int) (results : List SearchRepo),
       1 ≤ pp → pp ≤ (results.length : Int) → searchWindow pp 0 results = [])
    ∧ (∀ (type : RepoType) (sf : SortField) (dir : Direction) (pp : Int)
         (f : FetchedRepos) (w : List Repo),
       1 ≤ pp → pp ≤ ((filterByType type f).length : Int) →
       listWindow type sf dir pp 0 f = .ok w → w = []) := by
  constructor
  · intro pp results _ _
    unfold searchWindow
    have h : ((0 : Int) - 1) * pp + pp = 0 := by ring
    rw [h]
    exact pySlice_end_zero results _
  · intro type sf dir pp f w _ _ hw
    unfold listWindow at hw
    cases hs : reposSorted sf dir (filterByType type f) with
    | error e => rw [hs] at hw; cases hw
    | ok sorted =>
      rw [hs] at hw
      cases hw
      have h : ((0 : Int) - 1) * pp + pp = 0 := by ring
      rw [h]
      exact pySlice_end_zero sorted _

/-- Witness for C10: page 0 with per_page 2 over three search results and
over the three public repositories returns empty windows. -/
theorem c10_page_zero_empty_witness :
    searchWindow 2 0 demoSearch = []
    ∧ ([] : List Repo) = [] := by
  refine ⟨c10_page_zero_empty.1 2 demoSearch (by norm_num) (by decide), ?_⟩
  exact c10_page_zero_empty.2 .public .full_name .asc 2 demoFetched []
    (by norm_num) (by decide) (by decide)

/-- C9: For a user owning exactly the public repositories named
Zeta, alpha, Beta, `list_repositories(type="public", sort="full_name",
direction="asc", per_page=2, page=1)` sorts them case-insensitively to
alpha, Beta, Zeta and returns the first two, alpha and Beta. -/
theorem c9_worked_example :
    (reposSorted .full_name .asc (filterByType .public demoFetched)).map (List.map Repo.name)
        = .ok ["alpha", "Beta", "Zeta"]
    ∧ (listWindow .public .full_name .asc 2 1 demoFetched).map (List.map Repo.name)
        = .ok ["alpha", "Beta"] := by
  exact ⟨by decide, by decide⟩

/-- C5: In get_repository_contents, for every decodable non-binary text
file, a text of at most 4000 characters is previewed in full with no
truncation marker, and a longer text is previewed as exactly its first 4000
characters followed by the truncation marker. -/
theorem c5_preview_truncation (t : List Char) (hnb : is_binary t = false) :
    (t.length ≤ 4000 → previewOf (some t) = t)
    ∧ (4000 < t.length →
        previewOf (some t) = t.take 4000 ++ "\n...[truncated]...".data
        ∧ (t.take 4000).length = 4000) := by
  have h1 : previewOf (some t)
      = if is_binary t then "[Binary file preview omitted]".data
        else if t.length ≤ 4000 then t
        else t.take 4000 ++ "\n...[truncated]...".data := rfl
  rw [h1, hnb]
  constructor
  · intro hle
    rw [if_neg (by decide), if_pos hle]
  · intro hgt
    constructor
    · rw [if_neg (by decide), if_neg (by omega)]
    · simp only [List.length_take]
      omega

/-- Witness for C5: a 5000-character file is previewed as its first 4000
characters plus the truncation marker. -/
theorem c5_preview_truncation_witness :
    previewOf (some (List.replicate 5000 'a'))
        = (List.replicate 5000 'a').take 4000 ++ "\n...[truncated]...".data
    ∧ ((List.replicate 5000 'a').take 4000).length = 4000 := by
  have hnb : is_binary (List.replicate 5000 'a') = false := by
    unfold is_binary non_printable
    rw [List.take_replicate, List.filter_replicate_of_neg (by decide)]
    rfl
  exact (c5_preview_truncation (List.replicate 5000 'a') hnb).2
    (by norm_num [List.length_replicate])

/-- C6: For every repository whose license lookup fails, get_repository does
not raise: it returns a successful result whose license field is null, and
the failure of the license sub-fetch never propagates. -/
theorem c6_license_swallowed (owner repo : String) (r : FullRepo) (e : String) :
    get_repository owner repo (.ok r) (.error e)
        = .ok ("Repository Details:\n\n" ++ jsonDumps (repoInfoJson r none))
    ∧ jObjField (repoInfoJson r none) "license" = some JVal.null := by
  exact ⟨rfl, rfl⟩

/-- C7: get_repository_contents follows a three-tier error policy: an
assertion error from the content lookup is caught and returned as a
diagnostic string; any other failure while decoding or shaping a file is
caught and returned as a diagnostic string; and a provider error for the
repository or path lookup itself propagates as a raised failure. -/
theorem c7_error_tiers (owner repo path : String) (ref : Option String) (tS rS : String) :
    (∀ reprAe : String,
       get_repository_contents owner repo path ref (.ok ()) (.assertionError reprAe) tS rS
         = .ok ("[DEBUG] AssertionError while getting contents for "
                ++ ctxPath owner repo path ++ ": " ++ reprAe ++ "\n"
                ++ "path: " ++ pyReprStr path ++ ", ref: " ++ pyReprOptStr ref))
    ∧ (∀ (fc : FileContents) (eD : String), computeText fc = .error eD →
       get_repository_contents owner repo path ref (.ok ()) (.file fc) tS rS
         = .ok (debugInfo tS rS ++ "\n" ++ "Unexpected error decoding file for "
                ++ ctxPath owner repo path ++ ": " ++ eD))
    ∧ (∀ e : GithubException,
       get_repository_contents owner repo path ref (.ok ()) (.raised e) tS rS
         = .error ("Failed to get contents for " ++ ctxPath owner repo path ++ ": " ++ _err_msg e))
    ∧ (∀ (e : GithubException) (c : ContentsResult),
       get_repository_contents owner repo path ref (.error e) c tS rS
         = .error ("Failed to get contents for " ++ ctxPath owner repo path ++ ": " ++ _err_msg e)) := by
  refine ⟨fun reprAe => rfl, ?_, fun e => rfl, fun e c => rfl⟩
  intro fc eD h
  have hred : get_repository_contents owner repo path ref (.ok ()) (.file fc) tS rS
      = .ok (fileBranch owner repo path (debugInfo tS rS) fc) := rfl
  rw [hred]
  unfold fileBranch
  rw [h]

/-- Witness for C7: a malformed-base64 file is reported as an in-band
decode diagnostic, not raised. -/
theorem c7_error_tiers_witness :
    get_repository_contents "o" "r" "src" (some "main") (.ok ()) (.file badB64File) "t" "rp"
      = .ok (debugInfo "t" "rp" ++ "\n" ++ "Unexpected error decoding file for "
             ++ ctxPath "o" "r" "src" ++ ": "
             ++ "binascii.Error: Invalid base64-encoded string") :=
  (c7_error_tiers "o" "r" "src" (some "main") "t" "rp").2.1 badB64File
    "binascii.Error: Invalid base64-encoded string" rfl

/-- C8: For every provider error raised by any tool, the propagating
failure's message is the provider's structured message whenever the provider
supplied (nonempty) structured error data, and otherwise the generic
stringification of the exception. -/
theorem c8_provider_error_message :
    (∀ (e : GithubException) (d : List (String × String)),
       e.data = some d → d ≠ [] →
       _err_msg e = pyFormatOptStr (dictGet d "message"))
    ∧ (∀ e : GithubException, e.data = none → _err_msg e = e.str)
    ∧ (∀ e : GithubException, e.data = some [] → _err_msg e = e.str)
    ∧ (∀ (type : RepoType) (sf : SortField) (dir : Direction) (pp pg : Int)
         (e : GithubException),
       list_repositories type sf dir pp pg (.error e)
         = .error ("Failed to list repositories: " ++ _err_msg e)) := by
  refine ⟨?_, ?_, ?_, fun type sf dir pp pg e => rfl⟩
  · intro e d hd hne
    unfold _err_msg
    rw [hd]
    show (if d.isEmpty = true then e.str else pyFormatOptStr (dictGet d "message"))
        = pyFormatOptStr (dictGet d "message")
    rw [if_neg (by simp only [List.isEmpty_iff]; exact hne)]
  · intro e hd
    unfold _err_msg
    rw [hd]
  · intro e hd
    unfold _err_msg
    rw [hd]
    rfl

/-- Witness for C8: a structured 404 surfaces its message field; a bare
exception surfaces its stringification; the raised tool message embeds it. -/
theorem c8_provider_error_message_witness :
    _err_msg structuredErr
        = pyFormatOptStr (dictGet [("message", "Not Found"), ("status", "404")] "message")
    ∧ _err_msg bareErr = bareErr.str
    ∧ list_repositories .all .updated .desc 30 1 (.error structuredErr)
        = .error ("Failed to list repositories: " ++ _err_msg structuredErr) :=
  ⟨c8_provider_error_message.1 structuredErr _ rfl (by decide),
   c8_provider_error_message.2.1 bareErr rfl,
   c8_provider_error_message.2.2.2 .all .updated .desc 30 1 structuredErr⟩

/-- C3 counterexample: sorting by `created` over a fetch in which one
repository lacks the field raises a `TypeError` instead of completing with
the null-timestamped repository last. -/
theorem c3_counterexample :
    listWindow .all .created .asc 30 1 c3Fetched
      = .error "TypeError: comparison not supported between instances of datetime and NoneType" := by
  decide

/-- C3 amended: in list_repositories, sorting by a timestamp key (created,
updated, or pushed) completes without error exactly when every repository in
the filtered fetch carries the field; when at least two repositories are
sorted and any of them lacks the field (null timestamp), the comparison
against its `None` raises a `TypeError` — regardless of direction — rather
than placing it last, and the tool propagates that failure instead of
returning a window. -/
theorem c3_amended_timestamp_sort :
    (∀ (type : RepoType) (sf : SortField) (dir : Direction) (pp pg : Int)
       (f : FetchedRepos), tsSort sf →
       (∀ r ∈ filterByType type f, (tsKey sf r).isSome) →
       ∃ w, listWindow type sf dir pp pg f = .ok w)
    ∧ (∀ (type : RepoType) (sf : SortField) (dir : Direction) (pp pg : Int)
         (f : FetchedRepos), tsSort sf →
       2 ≤ (filterByType type f).length →
       (∃ r ∈ filterByType type f, ¬ (tsKey sf r).isSome = true) →
       ∃ e, listWindow type sf dir pp pg f = .error e
         ∧ list_repositories type sf dir pp pg (.ok f) = .error e) := by
  constructor
  · intro type sf dir pp pg f hsf hall
    obtain ⟨out, hout⟩ :=
      pySortedRev_ok (cmpRepo sf) (fun r => (tsKey sf r).isSome = true)
        (fun a b ha hb => cmpRepo_ts_ok sf hsf a b ha hb) dir.isDesc
        (filterByType type f) hall
    refine ⟨pySlice out ((pg - 1) * pp) ((pg - 1) * pp + pp), ?_⟩
    unfold listWindow reposSorted
    rw [hout]
  · intro type sf dir pp pg f hsf hlen hbad
    obtain ⟨e, he⟩ :=
      pySortedRev_error (cmpRepo sf) (fun r => (tsKey sf r).isSome = true)
        (fun a b hab => cmpRepo_ts_error sf hsf a b hab) dir.isDesc
        (filterByType type f) hlen hbad
    have hwin : listWindow type sf dir pp pg f = .error e := by
      unfold listWindow reposSorted
      rw [he]
    refine ⟨e, hwin, ?_⟩
    have hred : list_repositories type sf dir pp pg (.ok f)
        = match listWindow type sf dir pp pg f with
          | .error e => .error e
          | .ok window =>
              .ok ("Found " ++ Nat.repr window.length ++ " repositories:\n\n"
                   ++ jsonDumps (.jarr (window.map repoSummaryJson))) := rfl
    rw [hred, hwin]

/-- Witness for C3 amended: a fully dated fetch sorts and windows fine; the
two-element fetch with a missing `created_at` makes the tool propagate the
raised `TypeError`, in descending direction as well. -/
theorem c3_amended_timestamp_sort_witness :
    (∃ w, listWindow .all .created .asc 30 1 c3DatedFetched = .ok w)
    ∧ ∃ e, listWindow .all .created .desc 30 1 c3Fetched = .error e
        ∧ list_repositories .all .created .desc 30 1 (.ok c3Fetched) = .error e := by
  constructor
  · exact c3_amended_timestamp_sort.1 .all .created .asc 30 1 c3DatedFetched
      (Or.inl rfl) (by decide)
  · exact c3_amended_timestamp_sort.2 .all .created .desc 30 1 c3Fetched
      (Or.inl rfl) (by decide) ⟨mkRepo "missing-created" none, by decide, by decide⟩

/-- C2 counterexample: a decodable file whose first 100 characters are
eleven vertical tabs has more than 10 control characters below code point 32
outside tab, newline, and carriage return, yet the code previews it as text
(vertical tab and form feed are not counted by the implementation). -/
theorem c2_counterexample :
    computeText vtFile = .ok (some (List.replicate 11 (Char.ofNat 11)))
    ∧ 10 < specControlCount (List.replicate 11 (Char.ofNat 11))
    ∧ previewOf (some (List.replicate 11 (Char.ofNat 11)))
        = List.replicate 11 (Char.ofNat 11)
    ∧ List.replicate 11 (Char.ofNat 11) ≠ "[Binary file preview omitted]".data := by
  exact ⟨rfl, by decide, by decide, by decide⟩

/-- C2 amended: the binary placeholder is used exactly when, among the first
100 characters, more than 10 have code point below 9 or strictly between 13
and 32 — that is, control characters excluding tab, newline, vertical tab,
form feed, and carriage return; otherwise the text preview (with its
truncation rule) is used. -/
theorem c2_amended_binary_heuristic (t : List Char) :
    previewOf (some t)
      = if 10 < ((t.take 100).filter
            (fun c => decide (c.toNat < 9)
                      || (decide (13 < c.toNat) && decide (c.toNat < 32)))).length
        then "[Binary file preview omitted]".data
        else if t.length ≤ 4000 then t
        else t.take 4000 ++ "\n...[truncated]...".data := by
  have h1 : previewOf (some t)
      = if is_binary t then "[Binary file preview omitted]".data
        else if t.length ≤ 4000 then t
        else t.take 4000 ++ "\n...[truncated]...".data := rfl
  rw [h1]
  have hiff : (is_binary t = true)
      ↔ 10 < ((t.take 100).filter
          (fun c => decide (c.toNat < 9)
                    || (decide (13 < c.toNat) && decide (c.toNat < 32)))).length := by
    unfold is_binary non_printable isControlCounted
    exact decide_eq_true_iff
  exact if_congr hiff rfl rfl

/-- The count-prefixed list header contains no newline, whatever the count. -/
theorem foundHeader_ne_nl (n : Nat) :
    '\n' ∉ ("Found " ++ Nat.repr n ++ " repositories:").data := by
  intro h
  simp only [String.data_append, List.mem_append] at h
  rcases h with (h | h) | h
  · exact (by decide : '\n' ∉ "Found ".data) h
  · exact natRepr_ne_nl n h
  · exact (by decide : '\n' ∉ " repositories:".data) h

/-- C1 counterexample: a successful directory listing from
get_repository_contents starts with the `[DEBUG]` line, so it admits no
decomposition into a newline-free header, a blank line, and a body — the
header line is not the first thing in the returned string. -/
theorem c1_counterexample :
    ∃ s, get_repository_contents "o" "r" "" (some "main") (.ok ()) (.dir []) "listy" "listrepr"
        = .ok s
      ∧ ¬ ∃ h b : String, s = h ++ "\n\n" ++ b ∧ '\n' ∉ h.data := by
  refine ⟨"[DEBUG] contents type: listy, repr: listrepr\nDirectory Contents (root):\n\n[]",
    by decide, ?_⟩
  rintro ⟨h, b, heq, hnl⟩
  have ht : headerThenBlank (h ++ "\n\n" ++ b) = true := headerThenBlank_decomp h b hnl
  rw [← heq] at ht
  have hf : headerThenBlank
      "[DEBUG] contents type: listy, repr: listrepr\nDirectory Contents (root):\n\n[]"
      = false := by decide
  rw [ht] at hf
  exact Bool.noConfusion hf

/-- C1 amended: list_repositories, get_repository, and search_repositories
each return a single string that is a newline-free header line, a blank
line, and the 2-space-indented pretty-printed JSON body, with nothing before
the header; get_repository_contents instead prefixes a `[DEBUG]` line and a
single (non-blank) newline before its header on successful directory and
file results alike. -/
theorem c1_amended_output_shape :
    (∀ (type : RepoType) (sf : SortField) (dir : Direction) (pp pg : Int)
       (f : FetchedRepos) (w : List Repo), listWindow type sf dir pp pg f = .ok w →
       list_repositories type sf dir pp pg (.ok f)
         = .ok (("Found " ++ Nat.repr w.length ++ " repositories:") ++ "\n\n"
                ++ jsonDumps (.jarr (w.map repoSummaryJson)))
       ∧ '\n' ∉ ("Found " ++ Nat.repr w.length ++ " repositories:").data)
    ∧ (∀ (owner repo : String) (r : FullRepo) (lf : Except String String),
       get_repository owner repo (.ok r) lf
         = .ok (("Repository Details:") ++ "\n\n" ++ jsonDumps (repoInfoJson r lf.toOption))
       ∧ '\n' ∉ ("Repository Details:" : String).data)
    ∧ (∀ (q : String) (st : Option SearchSort) (order : Direction) (pp pg : Int)
         (found : List SearchRepo) (tc : Option Nat),
       search_repositories q st order pp pg (.ok (found, tc))
         = .ok (("Search Results:") ++ "\n\n"
                ++ jsonDumps (.jobj [("approx_total", optNatJson tc),
                                     ("items", .jarr ((searchWindow pp pg found).map searchItemJson))]))
       ∧ '\n' ∉ ("Search Results:" : String).data)
    ∧ (∀ (owner repo path : String) (ref : Option String) (entries : List DirEntry)
         (tS rS : String),
       get_repository_contents owner repo path ref (.ok ()) (.dir entries) tS rS
         = .ok ((debugInfo tS rS ++ "\n")
                ++ ("Directory Contents (" ++ (if path == "" then "root" else path) ++ "):")
                ++ "\n\n" ++ jsonDumps (.jarr (entries.map dirEntryJson))))
    ∧ (∀ (owner repo path : String) (ref : Option String) (fc : FileContents)
         (text : Option (List Char)) (tS rS : String), computeText fc = .ok text →
       get_repository_contents owner repo path ref (.ok ()) (.file fc) tS rS
         = .ok ((debugInfo tS rS ++ "\n") ++ ("File Details:") ++ "\n\n"
                ++ jsonDumps (fileInfoJson fc (previewOf text)))) := by
  refine ⟨?_, ?_, ?_, ?_, ?_⟩
  · intro type sf dir pp pg f w hw
    have hred : list_repositories type sf dir pp pg (.ok f)
        = match listWindow type sf dir pp pg f with
          | .error e => .error e
          | .ok window =>
              .ok ("Found " ++ Nat.repr window.length ++ " repositories:\n\n"
                   ++ jsonDumps (.jarr (window.map repoSummaryJson))) := rfl
    rw [hred, hw]
    refine ⟨?_, foundHeader_ne_nl w.length⟩
    show Except.ok ("Found " ++ Nat.repr w.length ++ " repositories:\n\n"
        ++ jsonDumps (.jarr (w.map repoSummaryJson))) = _
    have hsplit : (" repositories:\n\n" : String) = " repositories:" ++ "\n\n" := by decide
    rw [hsplit]
    simp only [String.append_assoc]
  · intro owner repo r lf
    have hsplit : ("Repository Details:\n\n" : String) = "Repository Details:" ++ "\n\n" := by
      decide
    cases lf with
    | ok s =>
      refine ⟨?_, by decide⟩
      show Except.ok ("Repository Details:\n\n" ++ jsonDumps (repoInfoJson r (some s))) = _
      rw [hsplit]
      simp only [String.append_assoc, Except.toOption]
    | error e =>
      refine ⟨?_, by decide⟩
      show Except.ok ("Repository Details:\n\n" ++ jsonDumps (repoInfoJson r none)) = _
      rw [hsplit]
      simp only [String.append_assoc, Except.toOption]
  · intro q st order pp pg found tc
    have hsplit : ("Search Results:\n\n" : String) = "Search Results:" ++ "\n\n" := by decide
    refine ⟨?_, by decide⟩
    show Except.ok ("Search Results:\n\n"
        ++ jsonDumps (.jobj [("approx_total", optNatJson tc),
                             ("items", .jarr ((searchWindow pp pg found).map searchItemJson))])) = _
    rw [hsplit]
  · intro owner repo path ref entries tS rS
    have hsplit : ("):\n\n" : String) = "):" ++ "\n\n" := by decide
    show Except.ok (debugInfo tS rS ++ "\n"
        ++ "Directory Contents (" ++ (if path == "" then "root" else path) ++ "):\n\n"
        ++ jsonDumps (.jarr (entries.map dirEntryJson))) = _
    rw [hsplit]
    simp only [String.append_assoc]
  · intro owner repo path ref fc text tS rS h
    have hred : get_repository_contents owner repo path ref (.ok ()) (.file fc) tS rS
        = .ok (fileBranch owner repo path (debugInfo tS rS) fc) := rfl
    rw [hred]
    unfold fileBranch
    rw [h]
    have hsplit : ("File Details:\n\n" : String) = "File Details:" ++ "\n\n" := by decide
    rw [hsplit]
    simp only [String.append_assoc]

/-- Witness for C1 amended at the worked example fetch and at the 11
vertical-tab file: the list output is the two-repository header, a blank
line, and the JSON body; the file output carries the debug prefix before its
header. -/
theorem c1_amended_output_shape_witness :
    (list_repositories .public .full_name .asc 2 1 (.ok demoFetched)
      = .ok (("Found " ++ Nat.repr ([mkRepo "alpha" none, mkRepo "Beta" none].length)
              ++ " repositories:") ++ "\n\n"
             ++ jsonDumps (.jarr ([mkRepo "alpha" none, mkRepo "Beta" none].map repoSummaryJson)))
    ∧ '\n' ∉ ("Found " ++ Nat.repr ([mkRepo "alpha" none, mkRepo "Beta" none].length)
              ++ " repositories:").data)
    ∧ get_repository_contents "o" "r" "vt.txt" (some "main") (.ok ()) (.file vtFile) "t" "rp"
        = .ok ((debugInfo "t" "rp" ++ "\n") ++ ("File Details:") ++ "\n\n"
               ++ jsonDumps (fileInfoJson vtFile
                   (previewOf (some (List.replicate 11 (Char.ofNat 11)))))) :=
  ⟨c1_amended_output_shape.1 .public .full_name .asc 2 1 demoFetched
    [mkRepo "alpha" none, mkRepo "Beta" none] (by decide),
   c1_amended_output_shape.2.2.2.2 "o" "r" "vt.txt" (some "main") vtFile
    (some (List.replicate 11 (Char.ofNat 11))) "t" "rp" rfl⟩
